import Mathlib

/- Shallow embedding of src/weather_cli.py (WeatherCLI): the data model, the
data-source adapter (get_current_weather / get_forecast with demo fallback),
the presentation formatter (format_current_weather / format_forecast, with
the forecast grouping logic), and the top-level main's exception handling.

Strings are embedded as lists of characters (Str).  Numeric JSON fields are
only ever interpolated into output text by the source, never computed with,
so they are embedded by their rendered text.  The network is embedded as an
oracle giving the outcome of each successive HTTP request. -/

namespace WeatherCLI

abbrev Str := List Char

/-- Python str.title restricted to ASCII case mapping: an alphabetic character
is uppercased when the preceding character is not alphabetic and lowercased
otherwise. -/
def titleAux : Bool → Str → Str
  | _, [] => []
  | prevAlpha, c :: rest =>
    (if c.isAlpha then (if prevAlpha then c.toLower else c.toUpper) else c) ::
      titleAux c.isAlpha rest

/-- `s.title()` from Python, as used on the city name and condition text. -/
def titleStr (s : Str) : Str := titleAux false s

/-- Decimal digits of a string read as a natural number
(helper for the weekday computation of `strftime` with format `%A`). -/
def parseNatStr (s : Str) : Nat := s.foldl (fun a c => a * 10 + (c.toNat - 48)) 0

/-- Day-of-week of a Gregorian date (0 = Sunday), Sakamoto's method; embeds
`datetime.strptime(date, %Y-%m-%d).strftime(%A)` of line 172-173. -/
def dayOfWeek (y m d : Nat) : Nat :=
  let t := [0, 3, 2, 5, 0, 3, 5, 1, 4, 6, 2, 4]
  let y2 := if m < 3 then y - 1 else y
  (y2 + y2 / 4 - y2 / 100 + y2 / 400 + t.getD (m - 1) 0 + d) % 7

def dayNames : List Str :=
  [("Sunday".toList), ("Monday".toList), ("Tuesday".toList), ("Wednesday".toList),
   ("Thursday".toList), ("Friday".toList), ("Saturday".toList)]

/-- English weekday name of a date string `YYYY-MM-DD`. -/
def dayName (date : Str) : Str :=
  let y := parseNatStr (date.take 4)
  let m := parseNatStr ((date.drop 5).take 2)
  let d := parseNatStr ((date.drop 8).take 2)
  (dayNames.getD (dayOfWeek y m d) [])

/-- The two unit systems admitted by the argparse `choices` of `--units`. -/
inductive Units where
  | metric
  | imperial
deriving DecidableEq

/-- JSON sub-object `main` of a current-weather response. -/
structure MainSection where
  temp : Str
  feels_like : Str
  humidity : Str
  pressure : Str
deriving DecidableEq

/-- One element of the JSON `weather` array. -/
structure WeatherField where
  main : Str
  description : Str
  icon : Option Str
deriving DecidableEq

instance : Inhabited WeatherField := ⟨{ main := [], description := [], icon := none }⟩

/-- JSON sub-object `wind`. -/
structure WindSection where
  speed : Str
  deg : Option Str
deriving DecidableEq

/-- A current-weather record (the non-error dictionary shape read by
`format_current_weather`). -/
structure CurrentData where
  name : Str
  main : MainSection
  weather : List WeatherField
  wind : WindSection
  visibility : Option Str
  sys_country : Option Str
  demo : Bool
deriving DecidableEq

/-- One element of the JSON `list` array of a forecast response. -/
structure ForecastItem where
  dt : Nat
  dt_txt : Str
  temp : Str
  humidity : Str
  weather_main : Str
  weather_description : Str
deriving DecidableEq

instance : Inhabited ForecastItem :=
  ⟨{ dt := 0, dt_txt := [], temp := [], humidity := [],
     weather_main := [], weather_description := [] }⟩

/-- JSON sub-object `city` of a forecast response. -/
structure ForecastCity where
  name : Str
  country : Option Str
deriving DecidableEq

/-- A forecast bundle (the non-error dictionary shape read by
`format_forecast`). -/
structure ForecastData where
  city : ForecastCity
  list : List ForecastItem
  demo : Bool
deriving DecidableEq

/-- Result of `get_current_weather`: either a dictionary with an `error` key
or a weather record. -/
inductive CurrentResult where
  | err (msg : Str)
  | ok (d : CurrentData)
deriving DecidableEq

/-- Result of `get_forecast`. -/
inductive ForecastResult where
  | err (msg : Str)
  | ok (d : ForecastData)
deriving DecidableEq

/-- The outcome of one `requests.get` call: either a `RequestException`
raised during transport (timeout, DNS, connection failure, and in current
requests also an undecodable body) carrying its message, or a response with
a status code and a decoded JSON body. -/
inductive HttpOutcome (α : Type) where
  | transportError (msg : Str)
  | response (status : Nat) (body : α)

/-- `_get_demo_weather` (lines 63-87). -/
def get_demo_weather (city : Str) : CurrentData :=
  { name := titleStr city
    main := { temp := "22.5".toList, feels_like := "24.1".toList,
              humidity := "65".toList, pressure := "1013".toList }
    weather := [{ main := "Clear".toList, description := "clear sky".toList,
                  icon := some ("01d".toList) }]
    wind := { speed := "3.2".toList, deg := some ("180".toList) }
    visibility := some ("10000".toList)
    sys_country := some ("DEMO".toList)
    demo := true }

/-- `_get_demo_forecast` (lines 89-123). -/
def get_demo_forecast (city : Str) : ForecastData :=
  { city := { name := titleStr city, country := some ("DEMO".toList) }
    list :=
      [{ dt := 1695398400, dt_txt := "2024-09-22 12:00:00".toList,
         temp := "25.0".toList, humidity := "60".toList,
         weather_main := "Sunny".toList, weather_description := "sunny".toList },
       { dt := 1695484800, dt_txt := "2024-09-23 12:00:00".toList,
         temp := "23.0".toList, humidity := "70".toList,
         weather_main := "Clouds".toList, weather_description := "partly cloudy".toList }]
    demo := true }

/-- `self.api_key = api_key or os.getenv(OPENWEATHER_API_KEY)` with Python
truthiness: the empty string counts as no credential. -/
def resolvedKey (cli env : Str) : Str := if cli = [] then env else cli

/-- The message of the `f-string` `API request failed: {str(e)}`. -/
def apiFailMsg (m : Str) : Str := "API request failed: ".toList ++ m

/-- Text of the `HTTPError` raised by `response.raise_for_status()` for a
status in 400-599 (the url/reason details of the real message are
environment data and are abstracted to the status class). -/
def httpErrorText (status : Nat) : Str :=
  (Nat.repr status).toList ++
    (if status < 500 then " Client Error".toList else " Server Error".toList)

/-- `get_current_weather` (lines 24-41).  `net` gives the outcome of each
successive HTTP request; the code issues a single request, so only `net 0`
is consulted.  `raise_for_status` raises exactly for statuses 400-599; the
`except requests.exceptions.RequestException` clause converts any raised
transport or status fault into an error dictionary, so the function is
total: it always returns `ok` or `err`. -/
def get_current_weather (api_key city : Str) (units : Units)
    (net : Nat → HttpOutcome CurrentData) : CurrentResult :=
  if api_key = [] then .ok (get_demo_weather city)
  else
    match net 0 with
    | .transportError m => .err (apiFailMsg m)
    | .response status body =>
      if 400 ≤ status ∧ status < 600 then .err (apiFailMsg (httpErrorText status))
      else .ok body

/-- `get_forecast` (lines 43-61); `days` enters only the request parameter
`cnt = days * 8`. -/
def get_forecast (api_key city : Str) (units : Units) (days : Nat)
    (net : Nat → HttpOutcome ForecastData) : ForecastResult :=
  if api_key = [] then .ok (get_demo_forecast city)
  else
    match net 0 with
    | .transportError m => .err (apiFailMsg m)
    | .response status body =>
      if 400 ≤ status ∧ status < 600 then .err (apiFailMsg (httpErrorText status))
      else .ok body

/-- `item[dt_txt].split(' ')[0]` of line 163: the calendar-date prefix of
the timestamp, up to the first space. -/
def dateOf (it : ForecastItem) : Str := it.dt_txt.takeWhile (fun c => decide (c ≠ ' '))

/-- The pattern of the membership test `'12:00:00' in f['dt_txt']`. -/
def middayPat : Str := "12:00:00".toList

/-- The grouping loop of lines 161-166: fold the items into an ordered
association list from date to the items of that date, in the order Python's
insertion-ordered dict produces. -/
def groupInto (acc : List (Str × List ForecastItem)) :
    List ForecastItem → List (Str × List ForecastItem)
  | [] => acc
  | item :: rest =>
    if dateOf item ∈ acc.map Prod.fst then
      groupInto (acc.map fun p => if p.1 = dateOf item then (p.1, p.2 ++ [item]) else p) rest
    else
      groupInto (acc ++ [(dateOf item, [item])]) rest

/-- `daily_forecasts` after the loop of lines 161-166. -/
def groupByDate (items : List ForecastItem) : List (Str × List ForecastItem) :=
  groupInto [] items

/-- `list(daily_forecasts.items())[:5]` built from `data['list'][:40]`
(lines 162 and 168). -/
def forecastBuckets (d : ForecastData) : List (Str × List ForecastItem) :=
  (groupByDate (d.list.take 40)).take 5

/-- Line 170: the midday entry of a bucket, or its first entry; the Python
substring test `'12:00:00' in f['dt_txt']` is the infix relation. -/
def representative (forecasts : List ForecastItem) : ForecastItem :=
  (forecasts.find? fun f => decide (middayPat <:+: f.dt_txt)).getD forecasts.headI

/-- `temp_unit` of lines 130 and 152. -/
def temp_unit (units : Units) : Str :=
  if units = .metric then "°C".toList else "°F".toList

/-- `speed_unit` of line 131. -/
def speed_unit (units : Units) : Str :=
  if units = .metric then "m/s".toList else "mph".toList

/-- The per-day block appended by lines 175-180. -/
def renderBlock (tu : Str) (b : Str × List ForecastItem) : Str :=
  "\n📆 ".toList ++ (dayName b.1 ++ (", ".toList ++ (b.1 ++
    ("\n   🌡️  ".toList ++ ((representative b.2).temp ++ (tu ++
    ("\n   ☁️  ".toList ++ (titleStr (representative b.2).weather_description ++
    ("\n   💧 ".toList ++ ((representative b.2).humidity ++
    "% humidity\n".toList))))))))))

/-- `format_current_weather` (lines 125-145), transcribed with the source's
inline unit conditionals. -/
def format_current_weather (data : CurrentResult) (units : Units) : Str :=
  match data with
  | .err e => "❌ Error: ".toList ++ e
  | .ok d =>
    let tu := if units = .metric then "°C".toList else "°F".toList
    let su := if units = .metric then "m/s".toList else "mph".toList
    "\n🌤️  Current Weather for ".toList ++ (d.name ++ (", ".toList ++
      ((d.sys_country.getD ("N/A".toList)) ++ ("\n".toList ++ (List.replicate 50 '=' ++
      ("\n🌡️  Temperature: ".toList ++ (d.main.temp ++ (tu ++
      (" (feels like ".toList ++ (d.main.feels_like ++ (tu ++
      (")\n☁️  Condition: ".toList ++ (titleStr d.weather.headI.description ++
      ("\n💧 Humidity: ".toList ++ (d.main.humidity ++
      ("%\n🔽 Pressure: ".toList ++ (d.main.pressure ++
      (" hPa\n💨 Wind: ".toList ++ (d.wind.speed ++ (" ".toList ++ (su ++
      ("\n👁️  Visibility: ".toList ++ ((d.visibility.getD ("N/A".toList)) ++
      (" meters".toList ++
      ((if d.demo then "\n🔧 DEMO MODE - Using sample data".toList else []) ++
      "\n".toList)))))))))))))))))))))))))

/-- `format_forecast` (lines 147-182), transcribed with the source's inline
unit conditional; the day blocks are the joined renderings of the buckets. -/
def format_forecast (data : ForecastResult) (units : Units) : Str :=
  match data with
  | .err e => "❌ Error: ".toList ++ e
  | .ok d =>
    let tu := if units = .metric then "°C".toList else "°F".toList
    "\n📅 5-Day Weather Forecast for ".toList ++ (d.city.name ++ (", ".toList ++
      ((d.city.country.getD ("N/A".toList)) ++ ("\n".toList ++ (List.replicate 60 '=' ++
      ((if d.demo then "\n🔧 DEMO MODE - Using sample data".toList else []) ++
      ("\n".toList ++
      ((forecastBuckets d).map (renderBlock tu)).flatten)))))))

/-- Phases of a run of `main` relative to its `try` block: argument parsing,
`WeatherCLI.__init__`, and the guarded fetch/format/print section. -/
inductive Phase where
  | parse
  | init
  | work
deriving DecidableEq

/-- The asynchronous event hitting a run: a `KeyboardInterrupt` in some
phase, an exception raised in some phase, or an undisturbed run. -/
inductive MainEvent where
  | interrupt (p : Phase)
  | failure (p : Phase) (msg : Str)
  | normal
deriving DecidableEq

/-- Parsed command-line arguments (the credential field is `[]` when
`--api-key` is absent). -/
structure Args where
  city : Str
  forecast : Bool
  units : Units
  api_key : Str
deriving DecidableEq

/-- How a run of `main` ends: a handled termination with an exit status and
the final text printed by the handler (or the formatted output on the normal
path), or an exception or interrupt escaping `main` uncaught (raw traceback,
interpreter-chosen nonzero status). -/
inductive MainOutcome where
  | exit (code : Nat) (finalPrint : Str)
  | uncaught (p : Phase)
deriving DecidableEq

/-- `main` (lines 184-224).  The `try` block of lines 209-217 covers only
the fetch/format/print work; the two handlers translate a
`KeyboardInterrupt` there into a farewell and exit 0, and any other
`Exception` there into a one-line message and exit 1.  Events in the parse
or init phases are outside the `try` and escape. -/
def runMain (env_key : Str) (a : Args) (netC : Nat → HttpOutcome CurrentData)
    (netF : Nat → HttpOutcome ForecastData) : MainEvent → MainOutcome
  | .interrupt .work => .exit 0 ("\n👋 Goodbye!".toList)
  | .failure .work m => .exit 1 ("❌ Unexpected error: ".toList ++ m)
  | .interrupt p => .uncaught p
  | .failure p _ => .uncaught p
  | .normal =>
    let key := resolvedKey a.api_key env_key
    if a.forecast then
      .exit 0 (format_forecast (get_forecast key a.city a.units 5 netF) a.units)
    else
      .exit 0 (format_current_weather (get_current_weather key a.city a.units netC) a.units)

/-- Distinct elements of a list in order of first occurrence, skipping the
elements of `seen` (the insertion order of the keys of a Python dict whose
keys already include `seen`). -/
def firstSeenAux (seen : List Str) : List Str → List Str
  | [] => []
  | d :: rest =>
    if d ∈ seen then firstSeenAux seen rest
    else d :: firstSeenAux (seen ++ [d]) rest

/-- Distinct elements of a list in order of first occurrence. -/
def firstSeen (l : List Str) : List Str := firstSeenAux [] l

/-- The time component of a timestamp string: everything after the first
space. -/
def timeOf (s : Str) : Str := (s.dropWhile (fun c => decide (c ≠ ' '))).tail

/-- A well-formed provider timestamp `YYYY-MM-DD HH:MM:SS`: a 10-character
date part holding neither a colon nor a space, one space, and an
8-character time part. -/
def wellFormedTs (s : Str) : Prop :=
  ∃ date time, s = date ++ ' ' :: time ∧ date.length = 10 ∧ time.length = 8 ∧
    ∀ c ∈ date, c ≠ ':' ∧ c ≠ ' '

/-- The current-weather template with the unit labels abstracted: the same
text as `format_current_weather` on a record, with the temperature and
speed suffixes as parameters.  The numeric fields of `d` are rendered
identically whatever the labels. -/
def renderCurrentWith (d : CurrentData) (tu su : Str) : Str :=
  "\n🌤️  Current Weather for ".toList ++ (d.name ++ (", ".toList ++
    ((d.sys_country.getD ("N/A".toList)) ++ ("\n".toList ++ (List.replicate 50 '=' ++
    ("\n🌡️  Temperature: ".toList ++ (d.main.temp ++ (tu ++
    (" (feels like ".toList ++ (d.main.feels_like ++ (tu ++
    (")\n☁️  Condition: ".toList ++ (titleStr d.weather.headI.description ++
    ("\n💧 Humidity: ".toList ++ (d.main.humidity ++
    ("%\n🔽 Pressure: ".toList ++ (d.main.pressure ++
    (" hPa\n💨 Wind: ".toList ++ (d.wind.speed ++ (" ".toList ++ (su ++
    ("\n👁️  Visibility: ".toList ++ ((d.visibility.getD ("N/A".toList)) ++
    (" meters".toList ++
    ((if d.demo then "\n🔧 DEMO MODE - Using sample data".toList else []) ++
    "\n".toList)))))))))))))))))))))))))

/-- The forecast template with the temperature label abstracted. -/
def renderForecastWith (d : ForecastData) (tu : Str) : Str :=
  "\n📅 5-Day Weather Forecast for ".toList ++ (d.city.name ++ (", ".toList ++
    ((d.city.country.getD ("N/A".toList)) ++ ("\n".toList ++ (List.replicate 60 '=' ++
    ((if d.demo then "\n🔧 DEMO MODE - Using sample data".toList else []) ++
    ("\n".toList ++
    ((forecastBuckets d).map (renderBlock tu)).flatten)))))))

/-- A forecast item with the given timestamp and fixed other fields
(concrete test data). -/
def mkItem (dt : Str) : ForecastItem :=
  { dt := 0, dt_txt := dt, temp := "0".toList, humidity := "0".toList,
    weather_main := "A".toList, weather_description := "a".toList }

/-- Concrete bundle: one date bucket with a non-midday entry before a
midday entry. -/
def wItem1 : ForecastItem := mkItem ("2024-09-22 09:00:00".toList)

def wItem2 : ForecastItem := mkItem ("2024-09-22 12:00:00".toList)

def wData : ForecastData :=
  { city := { name := "X".toList, country := none }, list := [wItem1, wItem2], demo := false }

/-- Concrete bundle whose first 40 entries span 7 distinct dates. -/
def spanData : ForecastData :=
  { city := { name := "X".toList, country := none }
    list :=
      (["2024-09-01 00:00:00", "2024-09-02 00:00:00", "2024-09-03 00:00:00",
        "2024-09-04 00:00:00", "2024-09-05 00:00:00", "2024-09-06 00:00:00",
        "2024-09-07 00:00:00"].map fun s => mkItem s.toList)
    demo := false }

/-- Concrete bundle spanning 7 distinct dates overall, whose first 40
entries all carry the same date. -/
def floodData : ForecastData :=
  { city := { name := "X".toList, country := none }
    list :=
      List.replicate 40 (mkItem ("2024-09-01 00:00:00".toList)) ++
      (["2024-09-02 00:00:00", "2024-09-03 00:00:00", "2024-09-04 00:00:00",
        "2024-09-05 00:00:00", "2024-09-06 00:00:00",
        "2024-09-07 00:00:00"].map fun s => mkItem s.toList)
    demo := false }

/-- Concrete arguments for a run of `main`. -/
def someArgs : Args :=
  { city := "london".toList, forecast := false, units := .metric, api_key := [] }

/-- A network oracle whose every request fails in transport. -/
def noNetC : Nat → HttpOutcome CurrentData := fun _ => .transportError []

def noNetF : Nat → HttpOutcome ForecastData := fun _ => .transportError []

/-- A network oracle answering every request with a non-success
redirection-class status 300 and a parseable body. -/
def oddResponseNetC : Nat → HttpOutcome CurrentData :=
  fun _ => .response 300 (get_demo_weather ("x".toList))

theorem firstSeenAux_not_mem {seen : List Str} {l : List Str} :
    ∀ x ∈ firstSeenAux seen l, x ∉ seen := by
  induction l generalizing seen with
  | nil => simp [firstSeenAux]
  | cons d rest ih =>
    intro x hx
    by_cases hd : d ∈ seen
    · simp only [firstSeenAux, if_pos hd] at hx
      exact ih x hx
    · simp only [firstSeenAux, if_neg hd, List.mem_cons] at hx
      rcases hx with rfl | hx
      · exact hd
      · have := ih x hx
        simp only [List.mem_append, List.mem_singleton, not_or] at this
        exact this.1

theorem firstSeenAux_subset {seen : List Str} {l : List Str} :
    ∀ x ∈ firstSeenAux seen l, x ∈ l := by
  induction l generalizing seen with
  | nil => simp [firstSeenAux]
  | cons d rest ih =>
    intro x hx
    by_cases hd : d ∈ seen
    · simp only [firstSeenAux, if_pos hd] at hx
      exact List.mem_cons_of_mem d (ih x hx)
    · simp only [firstSeenAux, if_neg hd, List.mem_cons] at hx
      rcases hx with rfl | hx
      · exact List.mem_cons_self x rest
      · exact List.mem_cons_of_mem d (ih x hx)

theorem find?_congr_mem {α : Type} {l : List α} {p q : α → Bool}
    (h : ∀ a ∈ l, p a = q a) : l.find? p = l.find? q := by
  induction l with
  | nil => rfl
  | cons a as ih =>
    have ha := h a (List.mem_cons_self a as)
    simp only [List.find?_cons, ← ha]
    cases hpa : p a
    · exact ih fun b hb => h b (List.mem_cons_of_mem a hb)
    · rfl

/-- The grouping loop agrees with the declarative description: starting from
an accumulator `acc`, each existing bucket is extended by the matching items
and the remaining items create buckets for the dates not yet seen, in order
of first occurrence, each holding the matching items in original order. -/
theorem groupInto_eq (items : List ForecastItem) : ∀ acc,
    groupInto acc items =
      acc.map (fun p => (p.1, p.2 ++ items.filter fun it => decide (dateOf it = p.1)))
        ++ (firstSeenAux (acc.map Prod.fst) (items.map dateOf)).map
            (fun e => (e, items.filter fun it => decide (dateOf it = e))) := by
  induction items with
  | nil =>
    intro acc
    simp [groupInto, firstSeenAux]
  | cons it rest ih =>
    intro acc
    by_cases hd : dateOf it ∈ acc.map Prod.fst
    · rw [groupInto, if_pos hd, ih]
      have hkeys : (acc.map fun p => if p.1 = dateOf it then (p.1, p.2 ++ [it]) else p).map
          Prod.fst = acc.map Prod.fst := by
        rw [List.map_map]
        refine List.map_congr_left fun p _ => ?_
        by_cases hp : p.1 = dateOf it <;> simp [hp]
      have hacc : (acc.map fun p => if p.1 = dateOf it then (p.1, p.2 ++ [it]) else p).map
            (fun p => (p.1, p.2 ++ rest.filter fun x => decide (dateOf x = p.1)))
          = acc.map fun p =>
              (p.1, p.2 ++ (it :: rest).filter fun x => decide (dateOf x = p.1)) := by
        rw [List.map_map]
        refine List.map_congr_left fun p _ => ?_
        by_cases hp : p.1 = dateOf it
        · have hne : dateOf it = p.1 := hp.symm
          simp [hp, List.filter_cons, List.append_assoc]
        · have hne : ¬ dateOf it = p.1 := fun h => hp h.symm
          simp [hp, List.filter_cons, hne]
      have htail : (firstSeenAux (acc.map Prod.fst) (rest.map dateOf)).map
            (fun e => (e, rest.filter fun x => decide (dateOf x = e)))
          = (firstSeenAux (acc.map Prod.fst) (rest.map dateOf)).map
            (fun e => (e, (it :: rest).filter fun x => decide (dateOf x = e))) := by
        refine List.map_congr_left fun e he => ?_
        have hme : e ∉ acc.map Prod.fst := firstSeenAux_not_mem e he
        have hne : ¬ dateOf it = e := fun h => hme (h ▸ hd)
        simp [List.filter_cons, hne]
      rw [hkeys, hacc, htail]
      have hstep : (it :: rest).map dateOf = dateOf it :: rest.map dateOf := rfl
      rw [hstep, firstSeenAux, if_pos hd]
    · rw [groupInto, if_neg hd, ih]
      have hkeys : ((acc ++ [(dateOf it, [it])]).map Prod.fst)
          = acc.map Prod.fst ++ [dateOf it] := by simp
      have hacc : acc.map (fun p => (p.1, p.2 ++ rest.filter fun x => decide (dateOf x = p.1)))
          = acc.map fun p =>
              (p.1, p.2 ++ (it :: rest).filter fun x => decide (dateOf x = p.1)) := by
        refine List.map_congr_left fun p hp => ?_
        have hp1 : p.1 ∈ acc.map Prod.fst := List.mem_map_of_mem Prod.fst hp
        have hne : ¬ dateOf it = p.1 := fun h => hd (h ▸ hp1)
        simp [List.filter_cons, hne]
      have hnew : (it :: rest).filter (fun x => decide (dateOf x = dateOf it))
          = it :: rest.filter fun x => decide (dateOf x = dateOf it) := by
        simp [List.filter_cons]
      have htail : (firstSeenAux (acc.map Prod.fst ++ [dateOf it]) (rest.map dateOf)).map
            (fun e => (e, rest.filter fun x => decide (dateOf x = e)))
          = (firstSeenAux (acc.map Prod.fst ++ [dateOf it]) (rest.map dateOf)).map
            (fun e => (e, (it :: rest).filter fun x => decide (dateOf x = e))) := by
        refine List.map_congr_left fun e he => ?_
        have hme : e ∉ acc.map Prod.fst ++ [dateOf it] := firstSeenAux_not_mem e he
        have hne : ¬ dateOf it = e := by
          intro h
          exact hme (by simp [h])
        simp [List.filter_cons, hne]
      have hstep : (it :: rest).map dateOf = dateOf it :: rest.map dateOf := rfl
      rw [hkeys, List.map_append, hacc, htail, hstep, firstSeenAux, if_neg hd]
      simp [List.append_assoc, hnew]

/-- `daily_forecasts` is the partition of the items by date, keyed in order
of first occurrence of each date. -/
theorem groupByDate_eq (items : List ForecastItem) :
    groupByDate items =
      (firstSeen (items.map dateOf)).map
        (fun e => (e, items.filter fun it => decide (dateOf it = e))) := by
  simpa [groupByDate, firstSeen] using groupInto_eq items []

theorem timeOf_concat (date time : Str) (hsp : ∀ c ∈ date, c ≠ ' ') :
    timeOf (date ++ ' ' :: time) = time := by
  induction date with
  | nil => simp [timeOf, List.dropWhile_cons]
  | cons c cs ih =>
    have hc : c ≠ ' ' := hsp c (List.mem_cons_self c cs)
    have hrest : ∀ x ∈ cs, x ≠ ' ' := fun x hx => hsp x (List.mem_cons_of_mem c hx)
    simpa [timeOf, List.dropWhile_cons, hc] using ih hrest

/-- On a well-formed timestamp, the Python substring test `'12:00:00' in
dt_txt` holds exactly when the time component equals `12:00:00`. -/
theorem midday_infix_iff {s : Str} (h : wellFormedTs s) :
    middayPat <:+: s ↔ timeOf s = middayPat := by
  obtain ⟨date, time, rfl, h10, h8, hdc⟩ := h
  have hsp : ∀ c ∈ date, c ≠ ' ' := fun c hc => (hdc c hc).2
  have htime := timeOf_concat date time hsp
  have hm : middayPat.length = 8 := by decide
  constructor
  · rintro ⟨p, q, hpq⟩
    have hlen : p.length + 8 + q.length = 19 := by
      have hl := congrArg List.length hpq
      simp only [List.length_append, List.length_cons, h10, h8, hm] at hl
      omega
    have hchar : ∀ k, k < 8 → (date ++ ' ' :: time)[p.length + k]? = middayPat[k]? := by
      intro k hk
      rw [← hpq, List.append_assoc, List.getElem?_append_right (Nat.le_add_right _ _),
        Nat.add_sub_cancel_left, List.getElem?_append, if_pos (by rw [hm]; exact hk)]
    have hs10 : (date ++ ' ' :: time)[(10 : Nat)]? = some ' ' := by
      rw [List.getElem?_append_right (le_of_eq h10), h10]
      simp
    have hdmem : ∀ i c, i < 10 → (date ++ ' ' :: time)[i]? = some c → c ∈ date := by
      intro i c hi hq
      rw [List.getElem?_append, if_pos (by rw [h10]; exact hi)] at hq
      obtain ⟨hlt, hEq⟩ := List.getElem?_eq_some.mp hq
      exact hEq ▸ List.getElem_mem hlt
    have h2 := hchar 2 (by omega)
    have hpat2 : middayPat[(2 : Nat)]? = some ':' := by decide
    rw [hpat2] at h2
    have hge9 : 9 ≤ p.length := by
      by_contra hlt
      rcases Nat.lt_or_ge (p.length + 2) 10 with hc1 | hc1
      · exact (hdc _ (hdmem _ _ hc1 h2)).1 rfl
      · have h210 : p.length + 2 = 10 := by omega
        rw [h210, hs10] at h2
        exact absurd h2 (by decide)
    have hge10 : 10 ≤ p.length := by
      rcases Nat.lt_or_ge p.length 10 with hlt | hge
      · have h9 : p.length = 9 := by omega
        have h1 := hchar 1 (by omega)
        have hpat1 : middayPat[(1 : Nat)]? = some '2' := by decide
        rw [hpat1, h9, show (9 + 1 : Nat) = 10 from rfl, hs10] at h1
        exact absurd h1 (by decide)
      · exact hge
    have hge11 : 11 ≤ p.length := by
      rcases Nat.lt_or_ge p.length 11 with hlt | hge
      · have heq : p.length = 10 := by omega
        have h0 := hchar 0 (by omega)
        have hpat0 : middayPat[(0 : Nat)]? = some '1' := by decide
        rw [hpat0, heq, show (10 + 0 : Nat) = 10 from rfl, hs10] at h0
        exact absurd h0 (by decide)
      · exact hge
    have hq0 : q = [] := List.eq_nil_of_length_eq_zero (by omega)
    subst hq0
    rw [List.append_nil, List.append_cons] at hpq
    have hinj := List.append_inj' hpq (by rw [hm, h8])
    rw [htime]
    exact hinj.2.symm
  · intro ht
    have h' : time = middayPat := by rw [← htime, ht]
    exact ⟨date ++ [' '], [], by simp [← h']⟩

theorem forecastBuckets_mem {d : ForecastData} {b : Str × List ForecastItem}
    (hb : b ∈ forecastBuckets d) :
    b.1 ∈ firstSeen ((d.list.take 40).map dateOf) ∧
    b.2 = (d.list.take 40).filter fun it => decide (dateOf it = b.1) := by
  have hb' : b ∈ groupByDate (d.list.take 40) := List.mem_of_mem_take hb
  rw [groupByDate_eq] at hb'
  obtain ⟨e, he, rfl⟩ := List.mem_map.mp hb'
  exact ⟨he, rfl⟩

/-- C1: for any forecast bundle of well-formed timestamps and any retained
date bucket, the bucket holds the matching entries in original order, and
the representative chosen on line 170 is the first entry of the bucket
whose time component is exactly `12:00:00`, or the bucket's first entry in
original order when no entry's time is `12:00:00`. -/
theorem c1_bucket_representative (d : ForecastData) (b : Str × List ForecastItem)
    (hwf : ∀ it ∈ d.list, wellFormedTs it.dt_txt) (hb : b ∈ forecastBuckets d) :
    b.2 = (d.list.take 40).filter (fun it => decide (dateOf it = b.1)) ∧
    representative b.2 =
      (b.2.find? fun f => decide (timeOf f.dt_txt = middayPat)).getD b.2.headI := by
  obtain ⟨hkey, hfil⟩ := forecastBuckets_mem hb
  refine ⟨hfil, ?_⟩
  unfold representative
  congr 1
  refine find?_congr_mem fun f hf => ?_
  have hf1 : f ∈ d.list := by
    rw [hfil] at hf
    exact List.mem_of_mem_take (List.mem_of_mem_filter hf)
  exact decide_eq_decide.mpr (midday_infix_iff (hwf f hf1))

theorem wData_wf : ∀ it ∈ wData.list, wellFormedTs it.dt_txt := by
  intro it hit
  rcases List.mem_cons.mp hit with rfl | hit
  · exact ⟨"2024-09-22".toList, "09:00:00".toList, by decide, by decide, by decide, by decide⟩
  rcases List.mem_cons.mp hit with rfl | hit
  · exact ⟨"2024-09-22".toList, "12:00:00".toList, by decide, by decide, by decide, by decide⟩
  · exact absurd hit (List.not_mem_nil it)

theorem c1_witness :
    (∀ it ∈ wData.list, wellFormedTs it.dt_txt) ∧
    ("2024-09-22".toList, [wItem1, wItem2]) ∈ forecastBuckets wData ∧
    ([wItem1, wItem2] = (wData.list.take 40).filter
        (fun it => decide (dateOf it = "2024-09-22".toList)) ∧
      representative [wItem1, wItem2] =
        ([wItem1, wItem2].find? fun f => decide (timeOf f.dt_txt = middayPat)).getD
          [wItem1, wItem2].headI) :=
  ⟨wData_wf, by decide,
    c1_bucket_representative wData ("2024-09-22".toList, [wItem1, wItem2])
      wData_wf (by decide)⟩

/-- C2: `format_forecast` reads only the first 40 entries of the bundle,
partitions them into buckets keyed by the calendar-date prefix of the
timestamp in order of first encounter of each date, each bucket holding its
entries in original order, and it retains at most the first 5 buckets. -/
theorem c2_forecast_grouping (d : ForecastData) (u : Units) :
    format_forecast (.ok d) u = format_forecast (.ok { d with list := d.list.take 40 }) u ∧
    (forecastBuckets d).map Prod.fst = (firstSeen ((d.list.take 40).map dateOf)).take 5 ∧
    (∀ b ∈ forecastBuckets d,
      b.2 = (d.list.take 40).filter fun it => decide (dateOf it = b.1)) ∧
    (forecastBuckets d).length ≤ 5 := by
  have hbk : forecastBuckets { d with list := d.list.take 40 } = forecastBuckets d := by
    simp [forecastBuckets, List.take_take]
  refine ⟨?_, ?_, ?_, ?_⟩
  · simp [format_forecast, hbk]
  · rw [forecastBuckets, List.map_take, groupByDate_eq, List.map_map]
    simp [Function.comp_def]
  · intro b hb
    exact (forecastBuckets_mem hb).2
  · exact List.length_take_le 5 _

/-- C3, amended: when the first 40 entries of the bundle span 7 distinct
calendar dates, the output holds exactly 5 day blocks, namely the first 5
dates in first-encounter order (the claim as stated, over the whole entry
sequence, fails because only the first 40 entries are grouped). -/
theorem c3_amended (d : ForecastData) (tu : Str)
    (h7 : (firstSeen ((d.list.take 40).map dateOf)).length = 7) :
    ((forecastBuckets d).map (renderBlock tu)).length = 5 ∧
    (forecastBuckets d).map Prod.fst = (firstSeen ((d.list.take 40).map dateOf)).take 5 := by
  have hg : (groupByDate (d.list.take 40)).length = 7 := by
    rw [groupByDate_eq, List.length_map, h7]
  constructor
  · rw [List.length_map, forecastBuckets, List.length_take, hg]
    decide
  · rw [forecastBuckets, List.map_take, groupByDate_eq, List.map_map]
    simp [Function.comp_def]

theorem c3_amended_witness :
    (firstSeen ((spanData.list.take 40).map dateOf)).length = 7 ∧
    (((forecastBuckets spanData).map (renderBlock ("°C".toList))).length = 5 ∧
      (forecastBuckets spanData).map Prod.fst
        = (firstSeen ((spanData.list.take 40).map dateOf)).take 5) :=
  ⟨by decide, c3_amended spanData ("°C".toList) (by decide)⟩

/-- C3 as stated is false on the code: a bundle whose whole sequence spans
7 distinct dates but whose first 40 entries all carry one date yields a
single day block, not 5. -/
theorem c3_counterexample :
    (firstSeen (floodData.list.map dateOf)).length = 7 ∧
    ((forecastBuckets floodData).map (renderBlock ("°C".toList))).length = 1 := by
  refine ⟨by decide, ?_⟩
  rw [List.length_map]
  decide

/-- C4 as stated is false on the code: in live (credential-configured) mode
a response with the non-success redirection-class status 300 and a
parseable body is returned as a success record, not as an Error value,
because `raise_for_status` raises only for statuses 400-599. -/
theorem c4_counterexample :
    get_current_weather ("k".toList) ("london".toList) .metric oddResponseNetC
      = .ok (get_demo_weather ("x".toList)) := by
  rfl

/-- C4, amended: with a credential configured, each fetch performs a single
attempt (its result depends only on the first network outcome); a transport
failure yields an Error value whose message carries the failure reason; a
response with status in 400-599 yields an Error value carrying the status
message; any other status yields the parsed body as a success record.  No
exception escapes this boundary: every network outcome is mapped to an `ok`
or an `err` value. -/
theorem c4_amended (key city : Str) (u : Units) (days : Nat)
    (netC : Nat → HttpOutcome CurrentData) (netF : Nat → HttpOutcome ForecastData)
    (m : Str) (s1 s2 : Nat) (b : CurrentData) (bf : ForecastData)
    (hk : key ≠ []) (hs1 : 400 ≤ s1 ∧ s1 < 600) (hs2 : ¬ (400 ≤ s2 ∧ s2 < 600)) :
    get_current_weather key city u netC = get_current_weather key city u (fun _ => netC 0) ∧
    get_current_weather key city u (fun _ => .transportError m) = .err (apiFailMsg m) ∧
    m <:+ apiFailMsg m ∧
    get_current_weather key city u (fun _ => .response s1 b)
      = .err (apiFailMsg (httpErrorText s1)) ∧
    get_current_weather key city u (fun _ => .response s2 b) = .ok b ∧
    get_forecast key city u days netF = get_forecast key city u days (fun _ => netF 0) ∧
    get_forecast key city u days (fun _ => .transportError m) = .err (apiFailMsg m) ∧
    get_forecast key city u days (fun _ => .response s1 bf)
      = .err (apiFailMsg (httpErrorText s1)) ∧
    get_forecast key city u days (fun _ => .response s2 bf) = .ok bf := by
  have hcw : ∀ (net : Nat → HttpOutcome CurrentData),
      get_current_weather key city u net =
        match net 0 with
        | .transportError mm => .err (apiFailMsg mm)
        | .response status body =>
          if 400 ≤ status ∧ status < 600 then .err (apiFailMsg (httpErrorText status))
          else .ok body := by
    intro net
    simp only [get_current_weather, if_neg hk]
  have hfc : ∀ (net : Nat → HttpOutcome ForecastData),
      get_forecast key city u days net =
        match net 0 with
        | .transportError mm => .err (apiFailMsg mm)
        | .response status body =>
          if 400 ≤ status ∧ status < 600 then .err (apiFailMsg (httpErrorText status))
          else .ok body := by
    intro net
    simp only [get_forecast, if_neg hk]
  refine ⟨by rw [hcw, hcw], by rw [hcw], List.suffix_append _ _, ?_, ?_,
    by rw [hfc, hfc], by rw [hfc], ?_, ?_⟩
  · rw [hcw]
    exact if_pos hs1
  · rw [hcw]
    exact if_neg hs2
  · rw [hfc]
    exact if_pos hs1
  · rw [hfc]
    exact if_neg hs2

theorem c4_amended_witness :
    ("k".toList ≠ ([] : Str)) ∧ (400 ≤ 404 ∧ 404 < 600) ∧ ¬ (400 ≤ 200 ∧ 200 < 600) ∧
    (get_current_weather ("k".toList) ("paris".toList) .metric noNetC
        = get_current_weather ("k".toList) ("paris".toList) .metric (fun _ => noNetC 0) ∧
      get_current_weather ("k".toList) ("paris".toList) .metric
          (fun _ => .transportError ("boom".toList)) = .err (apiFailMsg ("boom".toList)) ∧
      "boom".toList <:+ apiFailMsg ("boom".toList) ∧
      get_current_weather ("k".toList) ("paris".toList) .metric
          (fun _ => .response 404 (get_demo_weather []))
        = .err (apiFailMsg (httpErrorText 404)) ∧
      get_current_weather ("k".toList) ("paris".toList) .metric
          (fun _ => .response 200 (get_demo_weather [])) = .ok (get_demo_weather []) ∧
      get_forecast ("k".toList) ("paris".toList) .metric 5 noNetF
        = get_forecast ("k".toList) ("paris".toList) .metric 5 (fun _ => noNetF 0) ∧
      get_forecast ("k".toList) ("paris".toList) .metric 5
          (fun _ => .transportError ("boom".toList)) = .err (apiFailMsg ("boom".toList)) ∧
      get_forecast ("k".toList) ("paris".toList) .metric 5
          (fun _ => .response 404 (get_demo_forecast []))
        = .err (apiFailMsg (httpErrorText 404)) ∧
      get_forecast ("k".toList) ("paris".toList) .metric 5
          (fun _ => .response 200 (get_demo_forecast [])) = .ok (get_demo_forecast [])) :=
  ⟨by decide, by decide, by decide,
    c4_amended ("k".toList) ("paris".toList) .metric 5 noNetC noNetF ("boom".toList)
      404 200 (get_demo_weather []) (get_demo_forecast [])
      (by decide) (by decide) (by decide)⟩

/-- C5: on an Error value both formatters emit the single short line
`❌ Error: <message>`, which contains the original message and renders no
weather field, and which holds no newline when the message holds none. -/
theorem c5_error_formatting (msg : Str) (u : Units) (hnl : '\n' ∉ msg) :
    format_current_weather (.err msg) u = "❌ Error: ".toList ++ msg ∧
    format_forecast (.err msg) u = "❌ Error: ".toList ++ msg ∧
    msg <:+ ("❌ Error: ".toList ++ msg) ∧
    '\n' ∉ format_current_weather (.err msg) u ∧
    '\n' ∉ format_forecast (.err msg) u := by
  have hline : '\n' ∉ "❌ Error: ".toList ++ msg := by
    intro h
    rcases List.mem_append.mp h with h | h
    · exact absurd h (by decide)
    · exact hnl h
  exact ⟨rfl, rfl, List.suffix_append _ _, hline, hline⟩

theorem c5_witness :
    ('\n' ∉ ("boom".toList : Str)) ∧
    (format_current_weather (.err ("boom".toList)) .imperial
        = "❌ Error: ".toList ++ "boom".toList ∧
      format_forecast (.err ("boom".toList)) .imperial
        = "❌ Error: ".toList ++ "boom".toList ∧
      "boom".toList <:+ ("❌ Error: ".toList ++ "boom".toList) ∧
      '\n' ∉ format_current_weather (.err ("boom".toList)) .imperial ∧
      '\n' ∉ format_forecast (.err ("boom".toList)) .imperial) :=
  ⟨by decide, c5_error_formatting ("boom".toList) .imperial (by decide)⟩

/-- C6: with no credential configured, both fetch operations return the
fixed synthetic record independently of the network oracle, the synthetic
flag is set, and the returned name is the input city title-cased, whatever
the city string. -/
theorem c6_demo_mode (cli env city : Str) (u : Units) (days : Nat)
    (netC netC2 : Nat → HttpOutcome CurrentData)
    (netF netF2 : Nat → HttpOutcome ForecastData)
    (hk : resolvedKey cli env = []) :
    get_current_weather (resolvedKey cli env) city u netC = .ok (get_demo_weather city) ∧
    get_current_weather (resolvedKey cli env) city u netC
      = get_current_weather (resolvedKey cli env) city u netC2 ∧
    (get_demo_weather city).demo = true ∧
    (get_demo_weather city).name = titleStr city ∧
    get_forecast (resolvedKey cli env) city u days netF = .ok (get_demo_forecast city) ∧
    get_forecast (resolvedKey cli env) city u days netF
      = get_forecast (resolvedKey cli env) city u days netF2 ∧
    (get_demo_forecast city).demo = true ∧
    (get_demo_forecast city).city.name = titleStr city := by
  rw [hk]
  refine ⟨?_, ?_, rfl, rfl, ?_, ?_, rfl, rfl⟩ <;> simp [get_current_weather, get_forecast]

theorem c6_witness :
    resolvedKey [] [] = [] ∧
    (get_current_weather (resolvedKey [] []) ("paris".toList) .metric noNetC
        = .ok (get_demo_weather ("paris".toList)) ∧
      get_current_weather (resolvedKey [] []) ("paris".toList) .metric noNetC
        = get_current_weather (resolvedKey [] []) ("paris".toList) .metric noNetC ∧
      (get_demo_weather ("paris".toList)).demo = true ∧
      (get_demo_weather ("paris".toList)).name = titleStr ("paris".toList) ∧
      get_forecast (resolvedKey [] []) ("paris".toList) .metric 5 noNetF
        = .ok (get_demo_forecast ("paris".toList)) ∧
      get_forecast (resolvedKey [] []) ("paris".toList) .metric 5 noNetF
        = get_forecast (resolvedKey [] []) ("paris".toList) .metric 5 noNetF ∧
      (get_demo_forecast ("paris".toList)).demo = true ∧
      (get_demo_forecast ("paris".toList)).city.name = titleStr ("paris".toList)) :=
  ⟨rfl, c6_demo_mode [] [] ("paris".toList) .metric 5 noNetC noNetC noNetF noNetF rfl⟩

/-- C7: the unit argument selects exactly the label pairs
`°C`/`m/s` (metric) and `°F`/`mph` (imperial), and both formatters equal
the label-abstracted templates applied to those labels, so the unit
argument affects only the labels and never the numeric text rendered from
the record. -/
theorem c7_unit_labels (d : CurrentData) (f : ForecastData) (u : Units) :
    temp_unit .metric = "°C".toList ∧ speed_unit .metric = "m/s".toList ∧
    temp_unit .imperial = "°F".toList ∧ speed_unit .imperial = "mph".toList ∧
    format_current_weather (.ok d) u = renderCurrentWith d (temp_unit u) (speed_unit u) ∧
    format_forecast (.ok f) u = renderForecastWith f (temp_unit u) := by
  refine ⟨rfl, rfl, rfl, rfl, ?_, ?_⟩ <;> cases u <;> rfl

/-- C8 as stated is false on the code: a `KeyboardInterrupt` during the
argument-parsing phase is outside the `try` block of `main`, so it escapes
uncaught (raw traceback, interpreter-chosen status) instead of producing
the farewell line and exit status 0. -/
theorem c8_counterexample :
    runMain [] someArgs noNetC noNetF (.interrupt .parse) = .uncaught .parse ∧
    ¬ (runMain [] someArgs noNetC noNetF (.interrupt .parse)
        = .exit 0 ("\n👋 Goodbye!".toList)) :=
  ⟨rfl, by decide⟩

/-- C8, amended: during the guarded fetch/format/print phase, a user
interrupt exits with status 0 after the farewell line and no raw fault
trace, and any other fault is caught, reported as the single line
`❌ Unexpected error: <message>` (newline-free when the message is), and
exits with status 1; events during argument parsing or initialization are
outside these handlers. -/
theorem c8_amended (env : Str) (a : Args) (netC : Nat → HttpOutcome CurrentData)
    (netF : Nat → HttpOutcome ForecastData) (m : Str) (hm : '\n' ∉ m) :
    runMain env a netC netF (.interrupt .work) = .exit 0 ("\n👋 Goodbye!".toList) ∧
    runMain env a netC netF (.failure .work m)
      = .exit 1 ("❌ Unexpected error: ".toList ++ m) ∧
    m <:+ ("❌ Unexpected error: ".toList ++ m) ∧
    '\n' ∉ ("❌ Unexpected error: ".toList ++ m) := by
  refine ⟨rfl, rfl, List.suffix_append _ _, ?_⟩
  intro h
  rcases List.mem_append.mp h with h | h
  · exact absurd h (by decide)
  · exact hm h

theorem c8_amended_witness :
    ('\n' ∉ ("boom".toList : Str)) ∧
    (runMain [] someArgs noNetC noNetF (.interrupt .work)
        = .exit 0 ("\n👋 Goodbye!".toList) ∧
      runMain [] someArgs noNetC noNetF (.failure .work ("boom".toList))
        = .exit 1 ("❌ Unexpected error: ".toList ++ "boom".toList) ∧
      "boom".toList <:+ ("❌ Unexpected error: ".toList ++ "boom".toList) ∧
      '\n' ∉ ("❌ Unexpected error: ".toList ++ "boom".toList)) :=
  ⟨by decide, c8_amended [] someArgs noNetC noNetF ("boom".toList) (by decide)⟩

/-- C9: the synthetic forecast bundle holds exactly 2 entries, dated
`2024-09-22` and `2024-09-23` both at time `12:00:00`, so in synthetic mode
`format_forecast` emits exactly 2 day blocks although its header announces
a 5-day forecast. -/
theorem c9_demo_forecast_blocks (city : Str) (u : Units) (days : Nat)
    (netF : Nat → HttpOutcome ForecastData) :
    get_forecast [] city u days netF = .ok (get_demo_forecast city) ∧
    (get_demo_forecast city).list.length = 2 ∧
    (get_demo_forecast city).list.map (fun it => it.dt_txt)
      = [("2024-09-22 12:00:00".toList), ("2024-09-23 12:00:00".toList)] ∧
    ((forecastBuckets (get_demo_forecast city)).map (renderBlock (temp_unit u))).length = 2 ∧
    ("5-Day Weather Forecast".toList) <:+: format_forecast (.ok (get_demo_forecast city)) u := by
  refine ⟨by simp [get_forecast], rfl, rfl, ?_, ?_⟩
  · rw [List.length_map]
    rfl
  · have h1 : ("5-Day Weather Forecast".toList)
        <:+: ("\n📅 5-Day Weather Forecast for ".toList) := by decide
    have h2 : ("\n📅 5-Day Weather Forecast for ".toList)
        <+: format_forecast (.ok (get_demo_forecast city)) u := ⟨_, rfl⟩
    exact h1.trans h2.isInfix

/-- C10: with no credential configured, both fetch operations return
results identical under metric and under imperial units (and under any
network oracle): the synthetic data ignore the requested unit system. -/
theorem c10_demo_ignores_units (cli env city : Str) (days : Nat)
    (netC netC2 : Nat → HttpOutcome CurrentData)
    (netF netF2 : Nat → HttpOutcome ForecastData)
    (hk : resolvedKey cli env = []) :
    get_current_weather (resolvedKey cli env) city .metric netC
      = get_current_weather (resolvedKey cli env) city .imperial netC2 ∧
    get_forecast (resolvedKey cli env) city .metric days netF
      = get_forecast (resolvedKey cli env) city .imperial days netF2 := by
  rw [hk]
  constructor <;> simp [get_current_weather, get_forecast]

theorem c10_witness :
    resolvedKey [] [] = [] ∧
    (get_current_weather (resolvedKey [] []) ("paris".toList) .metric noNetC
        = get_current_weather (resolvedKey [] []) ("paris".toList) .imperial noNetC ∧
      get_forecast (resolvedKey [] []) ("paris".toList) .metric 5 noNetF
        = get_forecast (resolvedKey [] []) ("paris".toList) .imperial 5 noNetF) :=
  ⟨rfl, c10_demo_ignores_units [] [] ("paris".toList) 5 noNetC noNetC noNetF noNetF rfl⟩

end WeatherCLI
